import Mathlib

/-!
Verification of the entitlement-gating logic of a document-analysis backend.

The development shallowly embeds the policy code of the backend:
the UTC−6 daily date-bucketing helper, the plan resolver
(`get_user_plan_unified`), the quota gate (`check_analysis_access_and_limits`),
the usage commit (`increment_analysis_count`), the streamed-analysis wrapper
(`counted_stream`), the upload-file validation of the analyze endpoint, the
PDF text sanitizer (`sanitize_text_for_pdf`), and the authentication-layer
allow-list filter of `get_current_user`.

Python strings are embedded as Lean `String`; the Python string operations
used by the code (`strip`, `lower`, `split`, `in`) are reimplemented at the
character-list level so that every definition evaluates inside the kernel.
`lower` is modelled as ASCII lowercasing, which is what the code exercises on
email addresses and plan names.  Firestore is embedded as explicit state: the
per-user-per-day usage counters as a total function defaulting to zero
(matching `doc.to_dict().get('analysis_count', 0)` on an absent document), and
the customer subscription document as an optional record handed to the plan
resolver together with a marker for an unreachable store.  Wall-clock time is
an integer count of seconds since the Unix epoch.
-/

/-! ## Python string primitives -/

/-- ASCII lowercasing of one character, the effect of Python `str.lower` on
the ASCII range. -/
def lowerChar (c : Char) : Char :=
  if 65 ≤ c.val ∧ c.val ≤ 90 then Char.ofNat (c.toNat + 32) else c

/-- Python `str.lower` (ASCII fragment). -/
def pyLower (s : String) : String := ⟨s.data.map lowerChar⟩

/-- Whitespace trimming of a character list, both ends. -/
def trimChars (l : List Char) : List Char :=
  ((l.dropWhile Char.isWhitespace).reverse.dropWhile Char.isWhitespace).reverse

/-- Python `str.strip()`. -/
def pyStrip (s : String) : String := ⟨trimChars s.data⟩

/-- The `.strip().lower()` normalization the code applies to emails and to
every entry of the configured allow-lists. -/
def normEmail (s : String) : String := pyLower (pyStrip s)

/-- Python `str.split(sep)` for a one-character separator. -/
def splitOnChar (sep : Char) : List Char → List (List Char)
  | [] => [[]]
  | c :: rest =>
    let r := splitOnChar sep rest
    if c = sep then [] :: r
    else
      match r with
      | [] => [[c]]
      | h :: t => (c :: h) :: t

/-- Python `"@" in s`. -/
def containsAt (s : String) : Bool := s.data.contains '@'

/-- `email.split("@")[-1] if "@" in email else ""`: the substring after the
last `@` (used by the plan resolver). -/
def domainAfterLastAt (email : String) : String :=
  if containsAt email then ⟨(splitOnChar '@' email.data).getLastD []⟩ else ""

/-- `email.split("@")[1] if "@" in email else ""`: the segment after the
first `@` (used by the security-layer filter). -/
def domainAfterFirstAt (email : String) : String :=
  if containsAt email then ⟨(splitOnChar '@' email.data).getD 1 []⟩ else ""

/-! ## Date bucketing (`get_date_utc_minus_6`) -/

/-- Civil date (year, month, day) of a day number counted from 1970-01-01,
the standard days-to-civil conversion underlying `datetime`. -/
def civil_from_days (z : Int) : Int × Nat × Nat :=
  let zz := z + 719468
  let era : Int := zz.fdiv 146097
  let doe : Nat := (zz - era * 146097).toNat
  let yoe : Nat := (doe - doe / 1460 + doe / 36524 - doe / 146096) / 365
  let y : Int := (yoe : Int) + era * 400
  let doy : Nat := doe - (365 * yoe + yoe / 4 - yoe / 100)
  let mp : Nat := (5 * doy + 2) / 153
  let d : Nat := doy - (153 * mp + 2) / 5 + 1
  let m : Nat := if mp < 10 then mp + 3 else mp - 9
  (if m ≤ 2 then y + 1 else y, m, d)

/-- Zero-padded two-digit rendering, as `strftime` `%m` / `%d`. -/
def pad2 (n : Nat) : String := if n < 10 then "0" ++ toString n else toString n

/-- `strftime('%Y-%m-%d')` on a (year, month, day) triple. -/
def formatYmd (y : Int) (m d : Nat) : String :=
  toString y ++ "-" ++ pad2 m ++ "-" ++ pad2 d

/-- The fields of a Python aware `datetime` that the code reads, recovered
from a Unix timestamp in seconds. -/
structure PyDatetime where
  year : Int
  month : Nat
  day : Nat
  secondOfDay : Nat

/-- `datetime.fromtimestamp(t, utc)`: split a timestamp into a civil date and
a second-of-day. -/
def datetime_from_timestamp (t : Int) : PyDatetime :=
  let days := t.fdiv 86400
  let ymd := civil_from_days days
  { year := ymd.1, month := ymd.2.1, day := ymd.2.2
    secondOfDay := (t - days * 86400).toNat }

/-- `get_date_utc_minus_6`: `datetime.now(timezone.utc) - timedelta(hours=6)`
(`datetime` subtraction acts on the underlying timestamp), then
`strftime('%Y-%m-%d')`.  `t` is the current Unix time in seconds. -/
def get_date_utc_minus_6 (t : Int) : String :=
  let cst := datetime_from_timestamp (t - 6 * 3600)
  formatYmd cst.year cst.month cst.day

/-- Modelled from the spec: `bucket = format_date(utc_now() − 6h)` — the
calendar date of the instant six hours before now, formatted `YYYY-MM-DD`. -/
def bucket_spec (t : Int) : String :=
  let ymd := civil_from_days ((t - 6 * 3600).fdiv 86400)
  formatYmd ymd.1 ymd.2.1 ymd.2.2

/-! ## Limits tables (environment defaults) -/

/-- `ANALYSIS_LIMITS.get(plan_key, 0)` with the hard-coded default limits
(`basico` 3, `avanzado` 15, `premium` 25, `vip` −1 unlimited, anything else
absent hence 0). -/
def ANALYSIS_LIMITS (plan : String) : Int :=
  if plan = "basico" then 3
  else if plan = "avanzado" then 15
  else if plan = "premium" then 25
  else if plan = "vip" then -1
  else 0

/-- `DOCS_LIMITS.get(plan_key, 0)` with the hard-coded default ceilings
(`basico` 1, `avanzado` 3, `premium` 5, `vip` 100, anything else 0). -/
def DOCS_LIMITS (plan : String) : Int :=
  if plan = "basico" then 1
  else if plan = "avanzado" then 3
  else if plan = "premium" then 5
  else if plan = "vip" then 100
  else 0

/-! ## Usage store and quota gate -/

/-- The per-user-per-day usage counters: `analysis_count` under
`users/{uid}/usage_stats/{bucket}`, read with default 0 when the document is
absent. -/
structure UsageStore where
  counts : String → String → Nat

/-- The store with no usage documents. -/
def zeroStore : UsageStore := ⟨fun _ _ => 0⟩

/-- `increment_analysis_count`: merge-set with `firestore.Increment(1)` on
today's bucket document, creating it if absent. -/
def increment_analysis_count (st : UsageStore) (user_id : String) (t : Int) : UsageStore :=
  let today := get_date_utc_minus_6 t
  ⟨fun u d => if u = user_id ∧ d = today then st.counts u d + 1 else st.counts u d⟩

/-- The three `HTTPException` outcomes of the quota gate: 403 no active plan,
403 document-count ceiling, 429 daily limit. -/
inductive AccessError where
  | accessDenied
  | documentCountExceeded
  | dailyLimitExceeded
deriving DecidableEq

/-- Outcome of `check_analysis_access_and_limits`: return or raise. -/
inductive CheckResult where
  | ok
  | error (e : AccessError)
deriving DecidableEq

/-- `check_analysis_access_and_limits(user_id, plan_key, num_files,
check_daily)` against store `st` at wall-clock time `t`: reject `none` plans,
then the document-count ceiling (when `num_files > 0`, ceiling not −1), then,
only when `check_daily`, the daily limit (skipped when the limit is −1;
otherwise compare today's counter, default 0, against the limit). -/
def check_analysis_access_and_limits (st : UsageStore) (t : Int)
    (user_id plan_key : String) (num_files : Nat) (check_daily : Bool) : CheckResult :=
  if plan_key = "none" then .error .accessDenied
  else if num_files > 0 ∧ DOCS_LIMITS plan_key ≠ -1 ∧ (num_files : Int) > DOCS_LIMITS plan_key then
    .error .documentCountExceeded
  else if check_daily then
    if ANALYSIS_LIMITS plan_key = -1 then .ok
    else if (st.counts user_id (get_date_utc_minus_6 t) : Int) ≥ ANALYSIS_LIMITS plan_key then
      .error .dailyLimitExceeded
    else .ok
  else .ok

/-! ## Plan resolver (`get_user_plan_unified`) -/

/-- The fields of a `customers/{uid}` document the resolver reads.  `none`
in a field stands for an absent key (`dict.get` default path). -/
structure SubRecord where
  status : Option String
  plan : Option String

/-- Outcome of the Firestore read of the customer document: the document
(absent = `ok none`), or an exception from an unreachable store. -/
inductive FetchResult where
  | ok (record : Option SubRecord)
  | failure

/-- The admin allow-list configuration: `none` models a JSON parse failure of
`ADMIN_DOMAINS` / `ADMIN_EMAILS` (the code then uses two empty lists), `some`
carries the raw domain and email lists. -/
def AdminConfig : Type := Option (List String × List String)

/-- `[str(d).strip().lower() for d in ...]`. -/
def normalizeList (l : List String) : List String := l.map normEmail

/-- The normalized admin domain list of a configuration. -/
def adminDomains (cfg : AdminConfig) : List String :=
  match cfg with
  | some (ds, _) => normalizeList ds
  | none => []

/-- The normalized admin email list of a configuration. -/
def adminEmails (cfg : AdminConfig) : List String :=
  match cfg with
  | some (_, es) => normalizeList es
  | none => []

/-- The plan-defaulting step `plan = data.get('plan', 'basico');
return plan.lower() if plan else 'basico'`. -/
def planField (rec : SubRecord) : String :=
  match rec.plan with
  | none => "basico"
  | some p => if p = "" then "basico" else pyLower p

/-- `get_user_plan_unified(user_email, user_id)`: normalize the email, grant
`vip` on allow-list membership (domain after the last `@`, or full email),
otherwise read the customer document; `active`/`trialing` yields the
normalized plan field, anything else — absent document, other status, or a
store failure — yields `none`. -/
def get_user_plan_unified (cfg : AdminConfig) (fetch : FetchResult)
    (user_email_raw : String) : String :=
  let user_email := normEmail user_email_raw
  let email_domain := domainAfterLastAt user_email
  if email_domain ∈ adminDomains cfg ∨ user_email ∈ adminEmails cfg then "vip"
  else
    match fetch with
    | .failure => "none"
    | .ok none => "none"
    | .ok (some rec) =>
      match rec.status with
      | some s => if s = "active" ∨ s = "trialing" then planField rec else "none"
      | none => "none"

/-! ## Authentication-layer allow-list filter (`get_current_user`) -/

/-- The allow-list filter applied by `get_current_user` after token
verification: when either normalized list is non-empty, pass only emails
whose domain (segment after the first `@`) or whole address is listed;
when both lists are empty — in particular after a JSON parse failure —
pass every verified user.  `true` = pass, `false` = HTTP 403. -/
def allowlist_gate (cfg : AdminConfig) (email_raw : String) : Bool :=
  let email := normEmail email_raw
  let domain := domainAfterFirstAt email
  let allowed_domains := adminDomains cfg
  let allowed_emails := adminEmails cfg
  if allowed_domains ≠ [] ∨ allowed_emails ≠ [] then
    decide (domain ∈ allowed_domains) || decide (email ∈ allowed_emails)
  else true

/-! ## Upload-file validation (analyze endpoint, per-file loop) -/

/-- The per-file data the validation loop of `analyze_documents` reads: the
declared content type of the multipart part, and the raw bytes. -/
structure UploadedFile where
  filename : String
  content_type : String
  content : List Nat

/-- `content.startswith(sig)` on byte strings. -/
def bytesStartWith : List Nat → List Nat → Bool
  | [], _ => true
  | _ :: _, [] => false
  | a :: as, b :: bs => a = b && bytesStartWith as bs

/-- The `%PDF` magic. -/
def pdf_sig : List Nat := [0x25, 0x50, 0x44, 0x46]

/-- The `PK\x03\x04` Zip local-file-header magic of Office documents. -/
def docx_sig : List Nat := [0x50, 0x4B, 0x03, 0x04]

/-- The two rejections of the per-file loop. -/
inductive FileError where
  | tooLarge
  | unsupported
deriving DecidableEq

/-- Outcome of validating one uploaded file. -/
inductive FileCheck where
  | ok
  | error (e : FileError)
deriving DecidableEq

/-- The per-file validation of `analyze_documents`: reject a file above
`MAX_FILE_SIZE_MB`, then reject unless the bytes start with the PDF or the
Zip signature.  The declared `content_type` is never consulted. -/
def validate_file (max_mb : Nat) (f : UploadedFile) : FileCheck :=
  if f.content.length > max_mb * 1024 * 1024 then .error .tooLarge
  else
    let ispdf := bytesStartWith pdf_sig f.content
    let isdocx := bytesStartWith docx_sig f.content
    if !(ispdf || isdocx) then .error .unsupported
    else .ok

/-! ## PDF text sanitizer (`sanitize_text_for_pdf`) -/

/-- Python `text.replace(old, new)` for a one-character `old`. -/
def replaceChar (old : Char) (new : List Char) (s : List Char) : List Char :=
  s.flatMap (fun c => if c = old then new else [c])

/-- The substitution table of `sanitize_text_for_pdf`, in dict insertion
order with duplicate keys collapsed as Python does: bullet U+2022, em dash
U+2014, en dash U+2013, left/right double quotes U+201C/U+201D, left/right
single quotes U+2018/U+2019, ellipsis U+2026, private-use bullet U+F0B7. -/
def replacements : List (Char × List Char) :=
  [ (Char.ofNat 0x2022, [Char.ofNat 0x2D]),
    (Char.ofNat 0x2014, [Char.ofNat 0x2D]),
    (Char.ofNat 0x2013, [Char.ofNat 0x2D]),
    (Char.ofNat 0x201C, [Char.ofNat 0x22]),
    (Char.ofNat 0x201D, [Char.ofNat 0x22]),
    (Char.ofNat 0x2018, [Char.ofNat 0x27]),
    (Char.ofNat 0x2019, [Char.ofNat 0x27]),
    (Char.ofNat 0x2026, [Char.ofNat 0x2E, Char.ofNat 0x2E, Char.ofNat 0x2E]),
    (Char.ofNat 0xF0B7, [Char.ofNat 0x2D]) ]

/-- `text.encode('latin1', 'replace').decode('latin-1')`: keep every code
point below 256, replace every other character with `?`. -/
def latin1Replace (s : List Char) : List Char :=
  s.map (fun c => if c.toNat ≤ 255 then c else Char.ofNat 0x3F)

/-- `sanitize_text_for_pdf`: empty (falsy) text maps to the empty string;
otherwise apply the substitution table, then the lossy Latin-1 round trip. -/
def sanitize_text_for_pdf (s : List Char) : List Char :=
  if s = [] then []
  else latin1Replace (replacements.foldl (fun t p => replaceChar p.1 p.2 t) s)

/-! ## Streamed analysis and usage commit (`counted_stream`) -/

/-- The outcome of the model call as observed by `generate_stream`: a
successful stream delivering its chunks, or a stream that raises after
delivering some chunks (`generate_content_async` raising immediately is the
`failure [] err` case). -/
inductive ModelOutcome where
  | success (chunks : List String)
  | failure (chunks : List String) (err : String)

/-- The server-sent events the generator yields: a text delta, the terminal
done marker carrying the persisted history id, or the terminal error
marker. -/
inductive SSEvent where
  | text (s : String)
  | done (analysis_id : String)
  | error (msg : String)
deriving DecidableEq

/-- `generate_stream`: forward every non-empty chunk as a text event; on
normal completion persist the history record (second component `true`) and
yield the done marker; on an exception — caught inside the generator — yield
the error marker instead, with no history write. -/
def generate_stream (o : ModelOutcome) (analysis_id : String) : List SSEvent × Bool :=
  match o with
  | .success chunks => ((chunks.filter (· ≠ "")).map .text ++ [.done analysis_id], true)
  | .failure chunks err => ((chunks.filter (· ≠ "")).map .text ++ [.error err], false)

/-- `counted_stream`: drain `generate_stream`, then — unconditionally, the
generator having caught any exception of the model call — run
`increment_analysis_count`.  Returns the events, whether a history record
was written, and the updated usage store. -/
def counted_stream (st : UsageStore) (t : Int) (user_id : String)
    (o : ModelOutcome) (analysis_id : String) : List SSEvent × Bool × UsageStore :=
  let gs := generate_stream o analysis_id
  (gs.1, gs.2, increment_analysis_count st user_id t)

/-! ## Scenario constants -/

/-- Noon UTC on 2024-01-02 minus half a day: 2024-01-01 12:00:00 UTC, whose
UTC−6 bucket is `2024-01-01`. -/
def tDay1 : Int := 1704110400

/-- One calendar day later. -/
def tDay2 : Int := tDay1 + 86400

/-- Usage store after one commit for subject `u1` on day one. -/
def bStore1 : UsageStore := increment_analysis_count zeroStore "u1" tDay1

/-- Usage store after two commits for subject `u1` on day one. -/
def bStore2 : UsageStore := increment_analysis_count bStore1 "u1" tDay1

/-- Usage store after three commits for subject `u1` on day one. -/
def bStore3 : UsageStore := increment_analysis_count bStore2 "u1" tDay1

/-- An uploaded file declaring the content type `text/plain` while carrying
a PDF byte signature. -/
def mismFile : UploadedFile :=
  { filename := "doc.txt", content_type := "text/plain"
    content := [0x25, 0x50, 0x44, 0x46, 0x0A] }

/-! ## Helper lemmas -/

lemma docs_limits_nonneg (plan : String) : 0 ≤ DOCS_LIMITS plan := by
  unfold DOCS_LIMITS
  split_ifs <;> norm_num

lemma replacement_keys_big : ∀ p ∈ replacements, 255 < p.1.toNat := by decide

lemma replaceChar_eq_self (old : Char) (new : List Char) :
    ∀ s : List Char, (∀ c ∈ s, c ≠ old) → replaceChar old new s = s := by
  intro s h
  induction s with
  | nil => rfl
  | cons c cs ih =>
    have hc : c ≠ old := h c (List.mem_cons_self c cs)
    have hcs : replaceChar old new cs = cs :=
      ih (fun x hx => h x (List.mem_cons_of_mem c hx))
    simp only [replaceChar, List.flatMap_cons, if_neg hc] at *
    simp [hcs]

lemma foldl_replaceChar_eq_self :
    ∀ (l : List (Char × List Char)) (s : List Char),
      (∀ p ∈ l, 255 < p.1.toNat) → (∀ c ∈ s, c.toNat ≤ 255) →
      l.foldl (fun t p => replaceChar p.1 p.2 t) s = s := by
  intro l
  induction l with
  | nil => intro s _ _; rfl
  | cons p ps ih =>
    intro s hk hs
    have h1 : replaceChar p.1 p.2 s = s := by
      apply replaceChar_eq_self
      intro c hc heq
      have hle := hs c hc
      have hgt := hk p (List.mem_cons_self p ps)
      rw [heq] at hle
      omega
    simp only [List.foldl_cons, h1]
    exact ih s (fun q hq => hk q (List.mem_cons_of_mem p hq)) hs

lemma latin1Replace_eq_self :
    ∀ s : List Char, (∀ c ∈ s, c.toNat ≤ 255) → latin1Replace s = s := by
  intro s h
  induction s with
  | nil => rfl
  | cons c cs ih =>
    simp only [latin1Replace, List.map_cons, if_pos (h c (List.mem_cons_self c cs))]
    have := ih (fun x hx => h x (List.mem_cons_of_mem c hx))
    simp only [latin1Replace] at this
    rw [this]

lemma mem_latin1Replace_le {c : Char} {s : List Char} :
    c ∈ latin1Replace s → c.toNat ≤ 255 := by
  intro h
  rcases List.mem_map.mp h with ⟨x, _, rfl⟩
  by_cases hx : x.toNat ≤ 255
  · simp only [if_pos hx]
    exact hx
  · simp only [if_neg hx]
    decide

lemma sanitize_all_le (s : List Char) :
    ∀ c ∈ sanitize_text_for_pdf s, c.toNat ≤ 255 := by
  intro c hc
  unfold sanitize_text_for_pdf at hc
  by_cases h : s = []
  · rw [if_pos h] at hc
    exact absurd hc (List.not_mem_nil c)
  · rw [if_neg h] at hc
    exact mem_latin1Replace_le hc

/-! ## Claim theorems -/

/-- Claim C1, counterexample: with an empty initial store, a metered action
that raises before producing any output (`ModelOutcome.failure [] "boom"`)
still ends with the daily counter for `(u1, bucket)` incremented to 1 — the
wrapper drains the generator, which catches the exception, and then always
runs `increment_analysis_count`.  The second conjunct records that no history
document was written, i.e. the action did fail. -/
theorem failed_stream_still_charged_cex :
    zeroStore.counts "u1" (get_date_utc_minus_6 tDay1) = 0 ∧
    (counted_stream zeroStore tDay1 "u1" (.failure [] "boom") "a1").2.1 = false ∧
    (counted_stream zeroStore tDay1 "u1" (.failure [] "boom") "a1").2.2.counts "u1"
        (get_date_utc_minus_6 tDay1) = 1 := by
  decide

/-- Claim C1, amended: `commit_usage` runs whenever the response stream is
drained to its end, on success and on a caught failure alike: in both cases
the daily counter rises by exactly one; a failure is surfaced as a terminal
error event and skips only the history write, not the usage commit. -/
theorem usage_committed_after_stream_drain :
    ∀ (st : UsageStore) (t : Int) (uid : String) (chunks : List String) (err aid : String),
      (counted_stream st t uid (.failure chunks err) aid).2.2.counts uid (get_date_utc_minus_6 t) =
          st.counts uid (get_date_utc_minus_6 t) + 1 ∧
      (counted_stream st t uid (.failure chunks err) aid).1 =
          (chunks.filter (· ≠ "")).map .text ++ [.error err] ∧
      (counted_stream st t uid (.failure chunks err) aid).2.1 = false ∧
      (counted_stream st t uid (.success chunks) aid).2.2.counts uid (get_date_utc_minus_6 t) =
          st.counts uid (get_date_utc_minus_6 t) + 1 ∧
      (counted_stream st t uid (.success chunks) aid).2.1 = true := by
  intro st t uid chunks err aid
  refine ⟨?_, rfl, rfl, ?_, rfl⟩ <;>
    simp [counted_stream, generate_stream, increment_analysis_count]

/-- Claim C2: once the earlier gates pass (the plan is not `none` and the
document-count ceiling is met), the quota gate rejects with
`dailyLimitExceeded` exactly when the action is metered, the plan's daily
limit is not the −1 sentinel, and today's stored counter has reached the
limit; and the `basico` scenario: three same-day check-and-commit cycles
succeed, a fourth same-day check fails with `dailyLimitExceeded`, and the
same subject passes again the following day in the UTC−6 bucketing. -/
theorem daily_limit_exact :
    (∀ (st : UsageStore) (t : Int) (uid plan : String) (n : Nat) (metered : Bool),
      plan ≠ "none" →
      ¬(n > 0 ∧ DOCS_LIMITS plan ≠ -1 ∧ (n : Int) > DOCS_LIMITS plan) →
      (check_analysis_access_and_limits st t uid plan n metered = .error .dailyLimitExceeded ↔
        metered = true ∧ ANALYSIS_LIMITS plan ≠ -1 ∧
          (st.counts uid (get_date_utc_minus_6 t) : Int) ≥ ANALYSIS_LIMITS plan)) ∧
    (check_analysis_access_and_limits zeroStore tDay1 "u1" "basico" 1 true = .ok ∧
     check_analysis_access_and_limits bStore1 tDay1 "u1" "basico" 1 true = .ok ∧
     check_analysis_access_and_limits bStore2 tDay1 "u1" "basico" 1 true = .ok ∧
     check_analysis_access_and_limits bStore3 tDay1 "u1" "basico" 1 true =
       .error .dailyLimitExceeded ∧
     check_analysis_access_and_limits bStore3 tDay2 "u1" "basico" 1 true = .ok ∧
     get_date_utc_minus_6 tDay1 = "2024-01-01" ∧
     get_date_utc_minus_6 tDay2 = "2024-01-02") := by
  constructor
  · intro st t uid plan n metered h1 h2
    unfold check_analysis_access_and_limits
    rw [if_neg h1, if_neg h2]
    cases metered with
    | false => simp
    | true =>
      by_cases hlim : ANALYSIS_LIMITS plan = -1
      · simp [hlim]
      · by_cases hcnt : (st.counts uid (get_date_utc_minus_6 t) : Int) ≥ ANALYSIS_LIMITS plan
        · simp [hlim, hcnt]
        · simp [hlim, hcnt]
  · decide

/-- Claim C2, witness: the fourth same-day check of the `basico` scenario
instantiates the exactness of the daily-limit rejection. -/
theorem daily_limit_exact_witness :
    check_analysis_access_and_limits bStore3 tDay1 "u1" "basico" 1 true =
        .error .dailyLimitExceeded ↔
      true = true ∧ ANALYSIS_LIMITS "basico" ≠ -1 ∧
        (bStore3.counts "u1" (get_date_utc_minus_6 tDay1) : Int) ≥ ANALYSIS_LIMITS "basico" :=
  daily_limit_exact.1 bStore3 tDay1 "u1" "basico" 1 true (by decide) (by decide)

/-- Claim C3: an email whose normalized form is in the configured admin email
list, or whose domain (after the last `@`) is in the configured admin domain
list — both lists normalized by the same trim-and-lowercase — resolves to
`vip` for every possible state of the subscription store (the store is never
consulted on this path). -/
theorem allowlisted_email_resolves_vip
    (ds es : List String) (email : String)
    (h : domainAfterLastAt (normEmail email) ∈ normalizeList ds ∨
         normEmail email ∈ normalizeList es) :
    ∀ fetch : FetchResult, get_user_plan_unified (some (ds, es)) fetch email = "vip" := by
  intro fetch
  simp only [get_user_plan_unified, adminDomains, adminEmails]
  rw [if_pos h]

/-- Claim C3, witness: a mixed-case, padded email of an allow-listed domain
resolves to `vip` even when the store is unreachable. -/
theorem allowlisted_email_resolves_vip_witness :
    get_user_plan_unified (some (["pida-ai.com"], [])) .failure " Admin@Pida-AI.com " = "vip" :=
  allowlisted_email_resolves_vip ["pida-ai.com"] [] " Admin@Pida-AI.com " (by decide) .failure

/-- Claim C4: off the allow-list, the resolver returns `none` when the store
is unreachable, when the customer document is absent, and when its status is
neither `active` nor `trialing`; with an accepted status it returns the
lowercased plan field, defaulting to `basico` when the field is missing or
empty. -/
theorem non_allowlisted_plan_resolution
    (cfg : AdminConfig) (email : String)
    (h : ¬(domainAfterLastAt (normEmail email) ∈ adminDomains cfg ∨
           normEmail email ∈ adminEmails cfg)) :
    get_user_plan_unified cfg .failure email = "none" ∧
    get_user_plan_unified cfg (.ok none) email = "none" ∧
    (∀ rec : SubRecord, ¬(rec.status = some "active" ∨ rec.status = some "trialing") →
      get_user_plan_unified cfg (.ok (some rec)) email = "none") ∧
    (∀ rec : SubRecord, (rec.status = some "active" ∨ rec.status = some "trialing") →
      get_user_plan_unified cfg (.ok (some rec)) email = planField rec) ∧
    (∀ rec : SubRecord, rec.plan = none ∨ rec.plan = some "" → planField rec = "basico") ∧
    (∀ (rec : SubRecord) (p : String), rec.plan = some p → p ≠ "" →
      planField rec = pyLower p) := by
  refine ⟨?_, ?_, ?_, ?_, ?_, ?_⟩
  · simp only [get_user_plan_unified]
    rw [if_neg h]
  · simp only [get_user_plan_unified]
    rw [if_neg h]
  · intro rec hst
    simp only [get_user_plan_unified]
    rw [if_neg h]
    obtain ⟨st, pl⟩ := rec
    cases st with
    | none => rfl
    | some s =>
      simp only
      rw [if_neg]
      intro hc
      rcases hc with h1 | h1
      · exact hst (Or.inl (by rw [h1]))
      · exact hst (Or.inr (by rw [h1]))
  · intro rec hst
    simp only [get_user_plan_unified]
    rw [if_neg h]
    obtain ⟨st, pl⟩ := rec
    cases st with
    | none => rcases hst with h1 | h1 <;> exact absurd h1 (by simp)
    | some s =>
      simp only
      rw [if_pos]
      rcases hst with h1 | h1
      · exact Or.inl (Option.some.inj h1)
      · exact Or.inr (Option.some.inj h1)
  · intro rec hp
    unfold planField
    rcases hp with hp | hp <;> rw [hp]
    rfl
  · intro rec p hp hne
    unfold planField
    rw [hp]
    simp [hne]

/-- Claim C4, witness: a non-allow-listed subject with an unreachable store
resolves to `none`, and one with an active record and plan `Premium`
resolves to the lowercased `premium`. -/
theorem non_allowlisted_plan_resolution_witness :
    get_user_plan_unified (some ([], [])) .failure "x@y.com" = "none" ∧
    planField ⟨some "active", some "Premium"⟩ = pyLower "Premium" :=
  ⟨(non_allowlisted_plan_resolution (some ([], [])) "x@y.com" (by decide)).1,
   (non_allowlisted_plan_resolution (some ([], [])) "x@y.com" (by decide)).2.2.2.2.2
     ⟨some "active", some "Premium"⟩ "Premium" rfl (by decide)⟩

/-- Claim C5: a plan of `none` is rejected with `accessDenied` for a metered
action, whatever the store contents, the clock, the subject or the file
count — in particular before and independently of the document-count and
daily-limit consultations. -/
theorem none_plan_never_passes :
    ∀ (st : UsageStore) (t : Int) (uid : String) (n : Nat),
      check_analysis_access_and_limits st t uid "none" n true = .error .accessDenied := by
  intro st t uid n
  unfold check_analysis_access_and_limits
  rw [if_pos rfl]

/-- Claim C6, counterexample: a `vip` request with 101 documents is rejected
with `documentCountExceeded` — the `vip` ceiling is the finite 100, not an
unlimited sentinel, so `vip` requests are not universally exempt from the
document-count rejection. -/
theorem vip_docs_ceiling_cex :
    check_analysis_access_and_limits zeroStore tDay1 "u1" "vip" 101 true =
      .error .documentCountExceeded := by
  decide

/-- Claim C6, amended: for any plan past the `none` gate the quota gate
rejects with `documentCountExceeded` whenever the ceiling is not −1 and the
requested count exceeds it, metered or not; and `vip`, whose ceiling is 100,
is never rejected for document count when at most 100 documents are
requested. -/
theorem docs_ceiling_enforced :
    (∀ (st : UsageStore) (t : Int) (uid plan : String) (n : Nat) (metered : Bool),
      plan ≠ "none" → DOCS_LIMITS plan ≠ -1 → DOCS_LIMITS plan < (n : Int) →
      check_analysis_access_and_limits st t uid plan n metered =
        .error .documentCountExceeded) ∧
    (∀ (st : UsageStore) (t : Int) (uid : String) (n : Nat) (metered : Bool),
      n ≤ 100 →
      check_analysis_access_and_limits st t uid "vip" n metered ≠
        .error .documentCountExceeded) := by
  constructor
  · intro st t uid plan n metered h1 hd hgt
    have h0 := docs_limits_nonneg plan
    have hn : 0 < n := by omega
    unfold check_analysis_access_and_limits
    rw [if_neg h1, if_pos ⟨hn, hd, hgt⟩]
  · intro st t uid n metered hn
    have h100 : DOCS_LIMITS "vip" = 100 := by decide
    have hA : ANALYSIS_LIMITS "vip" = -1 := by decide
    unfold check_analysis_access_and_limits
    rw [if_neg (by decide : ¬("vip" = "none"))]
    rw [if_neg ?hcond]
    case hcond =>
      rintro ⟨-, -, hgt⟩
      rw [h100] at hgt
      omega
    cases metered <;> simp [hA]

/-- Claim C6 (amended), witness: a `basico` request with 2 documents against
the ceiling of 1 is rejected with `documentCountExceeded` even though the
daily counter is empty; the instantiation discharges both ceiling
hypotheses. -/
theorem docs_ceiling_enforced_witness :
    check_analysis_access_and_limits zeroStore tDay1 "u1" "basico" 2 true =
      .error .documentCountExceeded :=
  docs_ceiling_enforced.1 zeroStore tDay1 "u1" "basico" 2 true (by decide) (by decide)
    (by decide)

/-- Claim C7: the daily bucket key computed by the code — a UTC `datetime`
shifted back six hours and formatted `%Y-%m-%d` — equals the spec formula
`format_date(utc_now() − 6h)`, the calendar date of the instant six hours
before now, at every instant. -/
theorem bucket_matches_spec : ∀ t : Int, get_date_utc_minus_6 t = bucket_spec t :=
  fun _ => rfl

/-- Claim C8, counterexample: a file declaring the content type `text/plain`
— not a PDF or Office content type — is accepted because its bytes carry the
`%PDF` signature: the per-file validation never consults the declared
content type, so files are not verified by it. -/
theorem content_type_ignored_cex :
    validate_file 10 mismFile = .ok ∧
    mismFile.content_type = "text/plain" ∧
    mismFile.content_type ≠ "application/pdf" ∧
    mismFile.content_type ≠
      "application/vnd.openxmlformats-officedocument.wordprocessingml.document" := by
  decide

/-- Claim C8, amended: within the size ceiling, a file is accepted exactly
when its bytes start with the `%PDF` signature or the `PK 03 04` Zip
signature, and the outcome is invariant under changing the declared content
type — validation is by binary signature sniffing only. -/
theorem signature_only_acceptance :
    (∀ (m : Nat) (f : UploadedFile), f.content.length ≤ m * 1024 * 1024 →
      (validate_file m f = .ok ↔
        (bytesStartWith pdf_sig f.content || bytesStartWith docx_sig f.content) = true)) ∧
    (∀ (m : Nat) (f : UploadedFile) (ct : String),
      validate_file m { f with content_type := ct } = validate_file m f) := by
  constructor
  · intro m f hsz
    simp only [validate_file]
    rw [if_neg (not_lt.mpr hsz)]
    cases hb : bytesStartWith pdf_sig f.content || bytesStartWith docx_sig f.content <;>
      simp [hb]
  · intro m f ct
    rfl

/-- Claim C8 (amended), witness: the mismatched file is within the size
ceiling, and its acceptance coincides with its PDF signature. -/
theorem signature_only_acceptance_witness :
    validate_file 10 mismFile = .ok ↔
      (bytesStartWith pdf_sig mismFile.content ||
        bytesStartWith docx_sig mismFile.content) = true :=
  signature_only_acceptance.1 10 mismFile (by decide)

/-- Claim C9: the PDF sanitizer is idempotent; every character it emits fits
in Latin-1 (so a second lossy Latin-1 round trip is the identity); and on a
sample — ellipsis, em dash, `é`, `Ω` — it maps the substitution table to its
ASCII equivalents, keeps Latin-1 text, and turns the remaining unencodable
character into the `?` placeholder. -/
theorem sanitize_idempotent :
    (∀ s : List Char,
      sanitize_text_for_pdf (sanitize_text_for_pdf s) = sanitize_text_for_pdf s) ∧
    (∀ (s : List Char) (c : Char), c ∈ sanitize_text_for_pdf s → c.toNat ≤ 255) ∧
    (sanitize_text_for_pdf
        [Char.ofNat 0x2026, Char.ofNat 0x2014, Char.ofNat 0xE9, Char.ofNat 0x3A9] =
      [Char.ofNat 0x2E, Char.ofNat 0x2E, Char.ofNat 0x2E, Char.ofNat 0x2D,
        Char.ofNat 0xE9, Char.ofNat 0x3F]) := by
  refine ⟨?_, fun s c hc => sanitize_all_le s c hc, by decide⟩
  intro s
  by_cases h : sanitize_text_for_pdf s = []
  · rw [h]
    rfl
  · have hall := sanitize_all_le s
    set X := sanitize_text_for_pdf s with hX
    unfold sanitize_text_for_pdf
    rw [if_neg h]
    rw [foldl_replaceChar_eq_self replacements X replacement_keys_big hall]
    exact latin1Replace_eq_self X hall

/-- Claim C9, witness: sanitizing the already-sanitized em dash is a no-op,
and its emitted hyphen is Latin-1 encodable. -/
theorem sanitize_idempotent_witness :
    sanitize_text_for_pdf (sanitize_text_for_pdf [Char.ofNat 0x2014]) =
        sanitize_text_for_pdf [Char.ofNat 0x2014] ∧
    (Char.ofNat 0x2D).toNat ≤ 255 :=
  ⟨sanitize_idempotent.1 [Char.ofNat 0x2014],
   sanitize_idempotent.2.1 [Char.ofNat 0x2014] (Char.ofNat 0x2D) (by decide)⟩

/-- Claim C10: when either normalized admin list is non-empty, the
authentication-layer filter rejects (403) every verified email matching
neither list; when both lists are empty — in particular when the
configuration fails to parse, which the code maps to two empty lists — no
restriction is applied and every verified user passes, so malformed
configuration opens this gate. -/
theorem security_allowlist_lockout :
    (∀ (ds es : List String) (email : String),
      (normalizeList ds ≠ [] ∨ normalizeList es ≠ []) →
      ¬(domainAfterFirstAt (normEmail email) ∈ normalizeList ds ∨
        normEmail email ∈ normalizeList es) →
      allowlist_gate (some (ds, es)) email = false) ∧
    (∀ email : String, allowlist_gate none email = true) ∧
    (∀ email : String, allowlist_gate (some ([], [])) email = true) := by
  refine ⟨?_, fun email => rfl, fun email => rfl⟩
  intro ds es email hne hmem
  rw [not_or] at hmem
  simp only [allowlist_gate, adminDomains, adminEmails]
  rw [if_pos hne]
  simp [hmem.1, hmem.2]

/-- Claim C10, witness: with a one-domain allow-list, a verified email of a
different domain is rejected. -/
theorem security_allowlist_lockout_witness :
    allowlist_gate (some (["pida-ai.com"], [])) "a@b.com" = false :=
  security_allowlist_lockout.1 ["pida-ai.com"] [] "a@b.com" (by decide) (by decide)
